import Mathlib

/-!
Shallow embedding of the MKL convolution / fused-matmul kernels of
`tensorflow/core/kernels/mkl/mkl_conv_ops.cc` (this repository's excerpt),
together with theorems settling the specification claims about them.

Machine integers of the C++ source (int, int64) are modelled as `Int`;
dimension vectors (`memory::dims`) as `List Int`; `float` parameters that
only ever hold exactly representable constants (0.0, 1.0, 6.0, an
attribute value) as `Rat`; opaque mkldnn `memory::desc` fingerprints as
`Nat`; `std::vector<string>` as `List String`.  Fallible constructors and
kernels return `Except`/tagged outcomes mirroring `OP_REQUIRES` /
`OP_REQUIRES_OK` control flow.
-/

/-- Error kinds produced through the status channel by the code in this file:
`errors::InvalidArgument`, `errors::Unimplemented`, `errors::Aborted`. -/
inductive TfError
  | invalidArgument
  | unimplemented
  | aborted
  deriving DecidableEq, Repr

/-- The two data-format strings MKL kernels accept after `FormatFromString`
(lines 339-341): "NHWC" and "NCHW".  For rank-5 vectors they act as
NDHWC / NCDHW, exactly as TensorFlow's `GetTensorDim` does. -/
inductive DataFormat
  | NHWC
  | NCHW
  deriving DecidableEq, Repr

/-- Index of the dimension named by `c` in a vector of length `len`, for the
given format — the embedding of TensorFlow's `GetTensorDimIndex`:
for NHWC the batch is slot 0, the channel the last slot, spatial slot `i`
is `1 + i`; for NCHW the batch is slot 0, the channel slot 1, spatial slot
`i` is `2 + i`.  `H`/`W` name the last two spatial slots. -/
def dimIndex (fmt : DataFormat) (len : Nat) (c : Char) : Nat :=
  match fmt with
  | .NHWC =>
    if c = 'N' then 0
    else if c = 'C' then len - 1
    else if c = 'H' then len - 3
    else if c = 'W' then len - 2
    else if c = '0' then 1
    else if c = '1' then 2
    else 3
  | .NCHW =>
    if c = 'N' then 0
    else if c = 'C' then 1
    else if c = 'H' then len - 2
    else if c = 'W' then len - 1
    else if c = '0' then 2
    else if c = '1' then 3
    else 4

/-- Embedding of `GetTensorDim(vec, data_format_, c)` (lines 346-390). -/
def getTensorDim (fmt : DataFormat) (l : List Int) (c : Char) : Int :=
  l.getD (dimIndex fmt l.length c) 0

/-- Static attributes read by the `MklConvOp` constructor (lines 318-358):
the `dilations`, `strides` and `data_format` attributes, whether the op has
a `padding_list` and/or an `explicit_paddings` attribute, and
`is_filter_const`. -/
structure ConvAttrs where
  dilations : List Int
  strides : List Int
  data_format : DataFormat
  hasPaddingList : Bool
  hasExplicitPaddings : Bool
  is_filter_const : Bool
  deriving DecidableEq, Repr

/-- Fields the `MklConvOp` constructor stores when it succeeds. -/
structure ConvConfig where
  strides_ : List Int
  dilations_ : List Int
  data_format_ : DataFormat
  is_filter_const_ : Bool
  deriving DecidableEq, Repr

/-- Embedding of the `MklConvOp` constructor (lines 318-392), with its checks
in source order: at most one padding attribute (line 324); stride rank 4 or
5 (line 342); batch/channel stride equal to 1, reported as `Unimplemented`
(line 348); dilation rank matching the stride rank (lines 361, 376);
batch/channel dilation equal to 1 (lines 368, 379); spatial dilations
strictly positive (lines 372, 385).  Attribute lookups themselves are
assumed present, and `data_format` is one of the recognized strings (an
unrecognized string fails `FormatFromString` before any of this). -/
def mklConvOpInit (a : ConvAttrs) : Except TfError ConvConfig :=
  if a.hasPaddingList ∧ a.hasExplicitPaddings then .error .invalidArgument
  else if ¬(a.strides.length = 4 ∨ a.strides.length = 5) then
    .error .invalidArgument
  else if ¬(getTensorDim a.data_format a.strides 'N' = 1 ∧
            getTensorDim a.data_format a.strides 'C' = 1) then
    .error .unimplemented
  else if a.strides.length = 4 then
    if ¬(a.dilations.length = 4) then .error .invalidArgument
    else if ¬(getTensorDim a.data_format a.dilations 'N' = 1 ∧
              getTensorDim a.data_format a.dilations 'C' = 1) then
      .error .invalidArgument
    else if ¬(getTensorDim a.data_format a.dilations 'H' > 0 ∧
              getTensorDim a.data_format a.dilations 'W' > 0) then
      .error .invalidArgument
    else .ok ⟨a.strides, a.dilations, a.data_format, a.is_filter_const⟩
  else
    if ¬(a.dilations.length = 5) then .error .invalidArgument
    else if ¬(getTensorDim a.data_format a.dilations 'N' = 1 ∧
              getTensorDim a.data_format a.dilations 'C' = 1) then
      .error .invalidArgument
    else if ¬(getTensorDim a.data_format a.dilations '0' > 0 ∧
              getTensorDim a.data_format a.dilations '1' > 0 ∧
              getTensorDim a.data_format a.dilations '2' > 0) then
      .error .invalidArgument
    else .ok ⟨a.strides, a.dilations, a.data_format, a.is_filter_const⟩

/-- Positivity of the spatial entries of a dilation vector, rank-dependent:
`H`/`W` for rank 4, the three `0`/`1`/`2` slots for rank 5; vacuous for
other ranks (the source never reads spatial dilations then). -/
def spatialDilationsPositive (fmt : DataFormat) (dil : List Int) : Prop :=
  if dil.length = 4 then
    0 < getTensorDim fmt dil 'H' ∧ 0 < getTensorDim fmt dil 'W'
  else if dil.length = 5 then
    0 < getTensorDim fmt dil '0' ∧ 0 < getTensorDim fmt dil '1' ∧
    0 < getTensorDim fmt dil '2'
  else True

instance (fmt : DataFormat) (dil : List Int) :
    Decidable (spatialDilationsPositive fmt dil) := by
  unfold spatialDilationsPositive
  infer_instance

/-- Failure condition of the claim C7 exactly as stated: stride or dilation
on the batch/channel dimension differs from 1, a spatial dilation is not
positive, the stride rank is not 4 or 5, or both padding attributes are
present.  (This follows the claim's words, for comparison with
`mklConvOpInit`; note it lacks the dilation-rank condition.) -/
def c7ClaimFailureCondition (a : ConvAttrs) : Bool :=
  decide ((a.hasPaddingList ∧ a.hasExplicitPaddings) ∨
    (a.strides.length ≠ 4 ∧ a.strides.length ≠ 5) ∨
    getTensorDim a.data_format a.strides 'N' ≠ 1 ∨
    getTensorDim a.data_format a.strides 'C' ≠ 1 ∨
    getTensorDim a.data_format a.dilations 'N' ≠ 1 ∨
    getTensorDim a.data_format a.dilations 'C' ≠ 1 ∨
    ¬ spatialDilationsPositive a.data_format a.dilations)

/-- The constructor's actual failure condition (the claim's conditions plus
the dilation-rank/stride-rank agreement the source checks at lines 361 and
376). -/
def convInitFailureCondition (a : ConvAttrs) : Prop :=
  (a.hasPaddingList ∧ a.hasExplicitPaddings) ∨
  (a.strides.length ≠ 4 ∧ a.strides.length ≠ 5) ∨
  getTensorDim a.data_format a.strides 'N' ≠ 1 ∨
  getTensorDim a.data_format a.strides 'C' ≠ 1 ∨
  a.dilations.length ≠ a.strides.length ∨
  getTensorDim a.data_format a.dilations 'N' ≠ 1 ∨
  getTensorDim a.data_format a.dilations 'C' ≠ 1 ∨
  ¬ spatialDilationsPositive a.data_format a.dilations

/-- mkldnn activation algorithms used by the fusion branches. -/
inductive MklDnnAlgorithm
  | undef
  | eltwise_relu
  | eltwise_bounded_relu
  | eltwise_elu
  deriving DecidableEq, Repr

/-- Fusion flags of `MklConvOp` as set by `set_fuse_biasadd`,
`set_fuse_activation`, `set_fuse_add`, `set_fuse_pad`
(lines 634-649, 772-780). -/
structure FusionConfig where
  fuse_biasadd : Bool := false
  fuse_activation : Bool := false
  activation_alg : MklDnnAlgorithm := .undef
  alpha_or_upbound : Rat := 0
  fuse_add : Bool := false
  fuse_pad : Bool := false
  deriving DecidableEq, Repr

/-- Embedding of the `MklFusedConvOp` constructor's fusion dispatch
(lines 892-1002).  `leakyrelu_alpha` is the attribute read on the LeakyRelu
branches; `pad_enabled` is the template parameter.  The branches appear in
source order; the empty list is rejected first with `InvalidArgument`
(line 897), a list matching no branch with `Unimplemented` (line 994), and
a matched list whose `num_args` disagrees with the branch's requirement
with `InvalidArgument`. -/
def mklFusedConvInit (fused_ops : List String) (num_args : Int)
    (leakyrelu_alpha : Rat) (pad_enabled : Bool) :
    Except TfError FusionConfig :=
  if fused_ops = [] then .error .invalidArgument
  else if fused_ops = ["BiasAdd"] then
    if num_args = 1 then
      .ok { fuse_biasadd := true, fuse_pad := pad_enabled }
    else .error .invalidArgument
  else if fused_ops = ["Relu"] then
    .ok { fuse_activation := true, activation_alg := .eltwise_relu,
          fuse_pad := pad_enabled }
  else if fused_ops = ["Relu6"] then
    .ok { fuse_activation := true, activation_alg := .eltwise_bounded_relu,
          alpha_or_upbound := 6, fuse_pad := pad_enabled }
  else if fused_ops = ["Elu"] then
    .ok { fuse_activation := true, activation_alg := .eltwise_elu,
          alpha_or_upbound := 1, fuse_pad := pad_enabled }
  else if fused_ops = ["LeakyRelu"] then
    .ok { fuse_activation := true, activation_alg := .eltwise_relu,
          alpha_or_upbound := leakyrelu_alpha, fuse_pad := pad_enabled }
  else if fused_ops = ["BiasAdd", "Relu"] then
    if num_args = 1 then
      .ok { fuse_biasadd := true, fuse_activation := true,
            activation_alg := .eltwise_relu, fuse_pad := pad_enabled }
    else .error .invalidArgument
  else if fused_ops = ["BiasAdd", "Relu6"] then
    if num_args = 1 then
      .ok { fuse_biasadd := true, fuse_activation := true,
            activation_alg := .eltwise_bounded_relu, alpha_or_upbound := 6,
            fuse_pad := pad_enabled }
    else .error .invalidArgument
  else if fused_ops = ["BiasAdd", "Elu"] then
    if num_args = 1 then
      .ok { fuse_biasadd := true, fuse_activation := true,
            activation_alg := .eltwise_elu, alpha_or_upbound := 1,
            fuse_pad := pad_enabled }
    else .error .invalidArgument
  else if fused_ops = ["BiasAdd", "LeakyRelu"] then
    if num_args = 1 then
      .ok { fuse_biasadd := true, fuse_activation := true,
            activation_alg := .eltwise_relu,
            alpha_or_upbound := leakyrelu_alpha, fuse_pad := pad_enabled }
    else .error .invalidArgument
  else if fused_ops = ["BiasAdd", "Add"] then
    if num_args = 2 then
      .ok { fuse_biasadd := true, fuse_add := true, fuse_pad := pad_enabled }
    else .error .invalidArgument
  else if fused_ops = ["BiasAdd", "Add", "Relu"] then
    if num_args = 2 then
      .ok { fuse_biasadd := true, fuse_add := true, fuse_activation := true,
            activation_alg := .eltwise_relu, fuse_pad := pad_enabled }
    else .error .invalidArgument
  else if fused_ops = ["BiasAdd", "Add", "Relu6"] then
    if num_args = 2 then
      .ok { fuse_biasadd := true, fuse_add := true, fuse_activation := true,
            activation_alg := .eltwise_bounded_relu, alpha_or_upbound := 6,
            fuse_pad := pad_enabled }
    else .error .invalidArgument
  else if fused_ops = ["BiasAdd", "Add", "Elu"] then
    if num_args = 2 then
      .ok { fuse_biasadd := true, fuse_add := true, fuse_activation := true,
            activation_alg := .eltwise_elu, alpha_or_upbound := 1,
            fuse_pad := pad_enabled }
    else .error .invalidArgument
  else if fused_ops = ["BiasAdd", "Add", "LeakyRelu"] then
    if num_args = 2 then
      .ok { fuse_biasadd := true, fuse_add := true, fuse_activation := true,
            activation_alg := .eltwise_relu,
            alpha_or_upbound := leakyrelu_alpha, fuse_pad := pad_enabled }
    else .error .invalidArgument
  else .error .unimplemented

/-- Embedding of the `MklFusedDepthwiseConvOp` constructor's fusion dispatch
(lines 1014-1055): only `{BiasAdd}` and `{BiasAdd, activation}` for
activation in {Relu, Relu6, Elu} are matched; anything else is rejected
(empty with `InvalidArgument` at line 1025, unmatched with `Unimplemented`
at line 1042).  `num_args == 1` is checked after the dispatch (line 1047),
reached only on a matched branch because `OP_REQUIRES` returns early. -/
def mklFusedDepthwiseConvInit (fused_ops : List String) (num_args : Int)
    (pad_enabled : Bool) : Except TfError FusionConfig :=
  if fused_ops = [] then .error .invalidArgument
  else
    match
      (if fused_ops = ["BiasAdd"] then
        some { fuse_biasadd := true : FusionConfig }
      else if fused_ops = ["BiasAdd", "Relu"] then
        some { fuse_biasadd := true, fuse_activation := true,
               activation_alg := .eltwise_relu }
      else if fused_ops = ["BiasAdd", "Relu6"] then
        some { fuse_biasadd := true, fuse_activation := true,
               activation_alg := .eltwise_bounded_relu,
               alpha_or_upbound := 6 }
      else if fused_ops = ["BiasAdd", "Elu"] then
        some { fuse_biasadd := true, fuse_activation := true,
               activation_alg := .eltwise_elu, alpha_or_upbound := 1 }
      else none)
    with
    | none => .error .unimplemented
    | some cfg =>
      if num_args = 1 then .ok { cfg with fuse_pad := pad_enabled }
      else .error .invalidArgument

/-- The fusion lists the fused-conv constructor matches, in source order. -/
def convFusedAllLists : List (List String) :=
  [["BiasAdd"], ["Relu"], ["Relu6"], ["Elu"], ["LeakyRelu"],
   ["BiasAdd", "Relu"], ["BiasAdd", "Relu6"], ["BiasAdd", "Elu"],
   ["BiasAdd", "LeakyRelu"],
   ["BiasAdd", "Add"], ["BiasAdd", "Add", "Relu"],
   ["BiasAdd", "Add", "Relu6"], ["BiasAdd", "Add", "Elu"],
   ["BiasAdd", "Add", "LeakyRelu"]]

/-- Acceptance condition of the fused-conv constructor: an activation alone
(no `num_args` constraint in the source), bias with optional activation and
one extra argument, or bias plus residual add with optional activation and
two extra arguments. -/
def convFusedLegal (ops : List String) (num_args : Int) : Prop :=
  (ops ∈ [["Relu"], ["Relu6"], ["Elu"], ["LeakyRelu"]]) ∨
  (ops ∈ [["BiasAdd"], ["BiasAdd", "Relu"], ["BiasAdd", "Relu6"],
          ["BiasAdd", "Elu"], ["BiasAdd", "LeakyRelu"]] ∧ num_args = 1) ∨
  (ops ∈ [["BiasAdd", "Add"], ["BiasAdd", "Add", "Relu"],
          ["BiasAdd", "Add", "Relu6"], ["BiasAdd", "Add", "Elu"],
          ["BiasAdd", "Add", "LeakyRelu"]] ∧ num_args = 2)

/-- Acceptance condition of the fused-depthwise-conv constructor. -/
def dwFusedLegal (ops : List String) (num_args : Int) : Prop :=
  ops ∈ [["BiasAdd"], ["BiasAdd", "Relu"], ["BiasAdd", "Relu6"],
         ["BiasAdd", "Elu"]] ∧ num_args = 1

/-- One post-operation entry of `MklConvFwdParams::PostOpParam`
(lines 69-74); the factory-key string field is irrelevant here because the
conv path of this file contains no factory (see below). -/
structure PostOpParam where
  name : String
  alg : MklDnnAlgorithm
  param : List Rat
  deriving DecidableEq, Repr

/-- The operation descriptor `MklConvFwdParams` (lines 58-91): dimension
vectors, format tag, the dtype-signature string, and the ordered post-op
list.  Equality is structural. -/
structure MklConvFwdParams where
  src_dims : List Int
  filter_dims : List Int
  bias_dims : List Int
  dst_dims : List Int
  strides : List Int
  dilations : List Int
  padding_left : List Int
  padding_right : List Int
  tf_fmt : DataFormat
  dtypes : String
  post_op_params : List PostOpParam
  deriving DecidableEq, Repr

/-- Heap state for conv primitives: how many `MklConvFwdPrimitive`
constructions (each running the expensive `Setup`) have happened, the next
fresh allocation id, and the ids currently allocated. -/
structure PrimState where
  buildCount : Nat := 0
  nextHandle : Nat := 0
  live : List Nat := []
  deriving DecidableEq, Repr

/-- Embedding of lines 498-512: `conv_fwd = new MklConvFwdPrimitive<...>(convFwdDims)`.
Despite the comment "Get a conv2d fwd from primitive pool" (line 497), the
descriptor is not looked up anywhere: a fresh primitive is constructed
unconditionally, so the build count rises on every call regardless of the
descriptor's value. -/
def convAcquirePrimitive (_d : MklConvFwdParams) (s : PrimState) :
    Nat × PrimState :=
  (s.nextHandle,
   { buildCount := s.buildCount + 1, nextHandle := s.nextHandle + 1,
     live := s.live ++ [s.nextHandle] })

/-- Embedding of line 576: `delete conv_fwd` at the end of `Compute`. -/
def convReleasePrimitive (h : Nat) (s : PrimState) : PrimState :=
  { s with live := s.live.erase h }

/-- The primitive lifecycle of one `MklConvOp::Compute` call with descriptor
`d`: construct (line 511), use, destroy (line 576).  Returns the handle the
call used and the heap state afterwards. -/
def convComputeOnce (d : MklConvFwdParams) (s : PrimState) :
    Nat × PrimState :=
  let (h, s1) := convAcquirePrimitive d s
  (h, convReleasePrimitive h s1)

/-- Number of elements of a tensor shape, as `TensorShape::num_elements`:
the product of the dimensions. -/
def numElements (shape : List Int) : Int :=
  shape.foldl (fun a b => a * b) 1

/-- Outcome of the zero-size corner-case check in `MklConvOp::Compute`
(lines 436-445). -/
inductive ConvZeroOutcome
  | shortCircuit (allocatedShape : List Int)
  | proceed
  deriving DecidableEq, Repr

/-- Embedding of lines 436-445: if the computed output shape has zero
elements or a zero batch dimension, `Compute` allocates the output using
`src_tf_shape` — the SOURCE tensor's shape — and returns before any
primitive is constructed (line 511 is not reached); otherwise it proceeds
to build and execute. -/
def convComputeZeroCheck (src_tf_shape dst_dims_tf_order : List Int) :
    ConvZeroOutcome :=
  if numElements dst_dims_tf_order = 0 ∨ dst_dims_tf_order.headD 1 = 0 then
    .shortCircuit src_tf_shape
  else .proceed

/-- What one `MklFusedMatMulOp::Compute` call does around its zero-size
check (lines 1224-1246, 1318). -/
structure MatmulZeroResult where
  primitiveBuilt : Bool
  allocatedShape : List Int
  executed : Bool
  deriving DecidableEq, Repr

/-- Embedding of the fused-matmul `Compute` order of operations: the
primitive factory `Get` runs at lines 1224-1225, the output of shape
`{batch, channel}` is allocated at lines 1232-1241, and only then does the
`batch == 0 || channel == 0` check at line 1244 return early, skipping
execution (line 1318) but not the already-performed primitive
construction. -/
def matmulComputeZeroCheck (batch channel : Int) : MatmulZeroResult :=
  { primitiveBuilt := true,
    allocatedShape := [batch, channel],
    executed := decide (¬(batch = 0 ∨ channel = 0)) }

/-- Fingerprint of an mkldnn `memory::desc` (the cached filter's layout
descriptor); equality of fingerprints models `operator==` on descriptors. -/
abbrev Md := Nat

/-- Per-kernel-instance filter-cache state (lines 768-769):
`cached_filter_data_ptensor_` is empty until first populated (modelled as
`none`; a populated buffer is abstracted by the descriptor it was reordered
to, since the constant filter is fixed), `cached_filter_md_ptensor_` holds
the descriptor written with it, and `conversions` counts executed layout
reorders (the instrumentation counter for the claims on this cache). -/
structure FilterCacheState where
  cachedFilterData : Option Md := none
  cachedFilterMd : Option Md := none
  conversions : Nat := 0
  deriving DecidableEq, Repr

/-- The state of a freshly constructed kernel instance: both persistent
tensors empty. -/
def emptyFilterCache : FilterCacheState := {}

/-- Embedding of `IsFilterCacheEmpty` (lines 822-828): under the shared
lock, test whether the cached-filter tensor still has zero elements. -/
def IsFilterCacheEmpty (s : FilterCacheState) : Bool :=
  s.cachedFilterData.isNone

/-- Embedding of the `CacheFilter` critical section (lines 832-857): under
the exclusive lock `mu_`, re-check emptiness (line 842) and return without
touching the cache if another writer already populated it; otherwise
perform the reorder to `weights_desc`, store the converted buffer and the
descriptor it was produced for.  Because the mutex serializes this whole
body, a concurrent execution is a sequence of these atomic steps. -/
def CacheFilter (weights_desc : Md) (s : FilterCacheState) :
    FilterCacheState :=
  if s.cachedFilterData.isSome then s
  else
    { cachedFilterData := some weights_desc,
      cachedFilterMd := some weights_desc,
      conversions := s.conversions + 1 }

/-- Embedding of `GetCachedFilter` (lines 859-876): under the shared lock,
return the cached buffer only if the stored descriptor equals the one
requested; otherwise (or when nothing is stored) return null. -/
def GetCachedFilter (filter_md : Md) (s : FilterCacheState) : Option Md :=
  match s.cachedFilterMd with
  | none => none
  | some m => if filter_md = m then s.cachedFilterData else none

/-- State after `k` threads have each run the serialized `CacheFilter`
critical section with the same `weights_desc`, starting from the empty
cache — the arbitrary interleaving of the writers, at the granularity the
mutex enforces. -/
def cacheWriters (weights_desc : Md) (k : Nat) : FilterCacheState :=
  (List.range k).foldl (fun s _ => CacheFilter weights_desc s)
    emptyFilterCache

/-- Where `Compute` gets its filter data from (lines 529-561). -/
inductive FilterData
  | direct
  | cached (buf : Md)
  | freshReorder (toMd : Md)
  deriving DecidableEq, Repr

/-- Embedding of the filter-selection logic of `MklConvOp::Compute`
(lines 529-561): with a reorder needed (`filter_md != weights_desc`) and a
constant filter, populate the cache if empty, then look it up with THIS
call's `weights_desc`; a null lookup (descriptor mismatch) falls back to a
fresh, uncached per-call reorder.  Without a needed reorder the tensor's
own buffer is used directly. -/
def convSelectFilter (is_filter_const : Bool) (filter_md weights_desc : Md)
    (s : FilterCacheState) : FilterData × FilterCacheState :=
  if filter_md ≠ weights_desc then
    let s1 := if is_filter_const then
                (if IsFilterCacheEmpty s then CacheFilter weights_desc s
                 else s)
              else s
    match (if is_filter_const then GetCachedFilter weights_desc s1
           else none) with
    | some buf => (.cached buf, s1)
    | none => (.freshReorder weights_desc, s1)
  else (.direct, s)

/-- A data-handle slot of the primitive's context: bound to a live buffer
or holding the `DummyData` sentinel. -/
inductive Slot
  | bound (ptr : Nat)
  | dummy
  deriving DecidableEq, Repr

/-- The four buffer slots of `ConvFwdContext` that `Execute` rebinds
(lines 173-176). -/
structure ExecCtx where
  src_mem : Slot
  filter_mem : Slot
  bias_mem : Slot
  dst_mem : Slot
  deriving DecidableEq, Repr

/-- Embedding of `MklConvFwdPrimitive::Execute` (lines 112-154,
non-threadpool branch): bind the four data handles (bias only when
present), run the backend primitives, then set the handles back to
`DummyData` — but those reset statements (lines 148-153) are ordinary
straight-line code after the `execute` loop, so when the backend compute
call throws (`throws = true`, an `mkldnn::error` from line 143) the
exception propagates with the slots still bound and no reset runs.
`.error c` is the context state left behind by the throwing path;
`.ok c` the state after a normal return. -/
def primExecute (src filt : Nat) (bias : Option Nat) (dst : Nat)
    (throws : Bool) (c : ExecCtx) : Except ExecCtx ExecCtx :=
  let c1 : ExecCtx :=
    { src_mem := .bound src, filter_mem := .bound filt,
      bias_mem := match bias with
                  | some b => .bound b
                  | none => c.bias_mem,
      dst_mem := .bound dst }
  if throws then .error c1
  else
    .ok { src_mem := .dummy, filter_mem := .dummy,
          bias_mem := match bias with
                      | some _ => .dummy
                      | none => c1.bias_mem,
          dst_mem := .dummy }

/-- The phases of a `Compute` call in which the mkldnn backend can throw. -/
inductive ThrowPhase
  | build
  | reorder
  | execute
  deriving DecidableEq, Repr

/-- How a `Compute` call terminates: normally, with an error reported on
the call's status channel, or with an exception escaping `Compute`
uncaught. -/
inductive ComputeOutcome
  | ok
  | status (e : TfError)
  | uncaught
  deriving DecidableEq, Repr

/-- One backend operation of phase `phase`, throwing exactly when the run's
injected fault `throwAt` names that phase. -/
def opRun (throwAt : Option ThrowPhase) (phase : ThrowPhase) :
    Except ThrowPhase Unit :=
  if throwAt = some phase then .error phase else .ok ()

/-- Exception flow of `MklConvOp::Compute` (lines 394-586): the `try` block
opened at line 395 encloses primitive construction (line 511), filter
reorder (lines 544-557) and execution (lines 570-573); the handler at
lines 578-585 turns any `mkldnn::error` into an `Aborted` status for this
call. -/
def convComputeExn (throwAt : Option ThrowPhase) : ComputeOutcome :=
  match (do
      opRun throwAt .build
      opRun throwAt .reorder
      opRun throwAt .execute : Except ThrowPhase Unit) with
  | .ok _ => .ok
  | .error _ => .status .aborted

/-- Exception flow of `MklFusedMatMulOp::Compute` (lines 1156-1326): the
primitive factory `Get` (lines 1224-1225) runs BEFORE the `try` block
opened at line 1248, which encloses only the reorders (lines 1263-1301)
and execution (line 1318); the handler at lines 1319-1325 translates to an
`Aborted` status.  An exception thrown while building the primitive
therefore escapes `Compute` uncaught. -/
def matmulComputeExn (throwAt : Option ThrowPhase) : ComputeOutcome :=
  match opRun throwAt .build with
  | .error _ => .uncaught
  | .ok _ =>
    match (do
        opRun throwAt .reorder
        opRun throwAt .execute : Except ThrowPhase Unit) with
    | .ok _ => .ok
    | .error _ => .status .aborted

/-- Outcome of the `MklFusedMatMulOp` constructor: success (recording the
attributes it stores), a reported error, or an out-of-bounds vector read
(undefined behavior in the C++). -/
inductive MatMulCtorOutcome
  | ok (transpose_a transpose_b is_weight_const : Bool)
      (fused_ops : List String)
  | err (e : TfError)
  | oobRead
  deriving DecidableEq, Repr

/-- Embedding of the `MklFusedMatMulOp` constructor (lines 1136-1154): it
checks only `fused_ops_.size() <= 2` (line 1144) and then reads
`fused_ops_[0]` (line 1148).  For an empty `fused_ops` the size check
passes and the element read is out of bounds, modelled via `List.head?`
returning `none`. -/
def mklFusedMatMulInit (fused_ops : List String)
    (transpose_a transpose_b is_filter_const : Bool) : MatMulCtorOutcome :=
  if fused_ops.length ≤ 2 then
    match fused_ops.head? with
    | none => .oobRead
    | some f0 =>
      if f0 = "BiasAdd" then
        if transpose_a = false then
          .ok transpose_a transpose_b is_filter_const fused_ops
        else .err .invalidArgument
      else .err .invalidArgument
  else .err .invalidArgument

/-- Observable memory events of `MklFusedMatMulOp::Compute` on the freshly
allocated destination buffer. -/
inductive MatmulEvent
  | allocDst (shape : List Int)
  | readDst (i : Nat)
  | writeDst
  deriving DecidableEq, BEq, Repr

/-- Destination-buffer event trace of one fused-matmul `Compute` call
(non-MKL-layout path): allocate `dst` of `batch * channel` elements
(lines 1236-1241); return early when `batch == 0 || channel == 0`
(line 1244); otherwise the unconditional min/max scan at lines 1304-1315
reads `dst_data[i]` for every `i < dst_tensor->NumElements()`, and only
afterwards does `matmul_prim->Execute` (line 1318) write the destination. -/
def matmulComputeTrace (batch channel : Nat) : List MatmulEvent :=
  MatmulEvent.allocDst [(batch : Int), (channel : Int)] ::
  (if batch = 0 ∨ channel = 0 then []
   else ((List.range (batch * channel)).map MatmulEvent.readDst) ++
        [MatmulEvent.writeDst])

/-- The prefix of a trace before the destination buffer is first written. -/
def beforeDstWrite (t : List MatmulEvent) : List MatmulEvent :=
  t.takeWhile (fun e => e != MatmulEvent.writeDst)

/-- C1: in `MklConvOp::Compute` the primitive is NOT fetched from a pool:
two consecutive calls with the same descriptor run the expensive
construction twice (build count 2, not 1), get distinct primitive objects,
and retain none of them (the primitive is deleted at the end of each call),
contradicting the claim that `GetOrCreate` builds once and returns the same
handle for equal descriptors. -/
theorem convComputeRebuildsPrimitiveEachCall (d : MklConvFwdParams) :
    ((convComputeOnce d (convComputeOnce d {}).2).2).buildCount = 2 ∧
    (convComputeOnce d {}).1 ≠ (convComputeOnce d (convComputeOnce d {}).2).1 ∧
    ((convComputeOnce d (convComputeOnce d {}).2).2).live = [] := by
  refine ⟨rfl, ?_, rfl⟩
  intro h
  exact Nat.noConfusion h

/-- C2 counterexample: with `batch = 0` the fused-matmul kernel still builds
its primitive before the zero-size check, and in the conv kernel a
zero-element output shape `[1,3,3,0]` coming from a 9-element source
`[1,3,3,1]` makes the short-circuit allocate a 9-element (not zero-sized)
output, refuting the claim that the short-circuit allocates a zero-sized
tensor and skips primitive construction entirely. -/
theorem zeroSizedOutputClaimCex :
    (matmulComputeZeroCheck 0 5).primitiveBuilt = true ∧
    convComputeZeroCheck [1, 3, 3, 1] [1, 3, 3, 0] =
      ConvZeroOutcome.shortCircuit [1, 3, 3, 1] ∧
    numElements [1, 3, 3, 1] = 9 := by
  refine ⟨rfl, ?_, by decide⟩
  unfold convComputeZeroCheck
  rw [if_pos]
  exact Or.inl (by decide)

/-- C2 amended: a zero-sized (or zero-batch) computed output is a valid
terminal case, not an error.  The conv kernel short-circuits before any
primitive is constructed, allocating the output with the source tensor's
shape; the fused-matmul kernel allocates the (zero-sized) `[batch,channel]`
output and skips execution, but its primitive has already been constructed
before the check. -/
theorem zeroSizedOutputShortCircuit :
    (∀ src dst : List Int,
        (numElements dst = 0 ∨ dst.headD 1 = 0) →
        convComputeZeroCheck src dst = ConvZeroOutcome.shortCircuit src) ∧
    (∀ b c : Int, (b = 0 ∨ c = 0) →
        (matmulComputeZeroCheck b c).executed = false ∧
        (matmulComputeZeroCheck b c).allocatedShape = [b, c] ∧
        numElements [b, c] = 0) := by
  constructor
  · intro src dst h
    unfold convComputeZeroCheck
    rw [if_pos h]
  · intro b c h
    refine ⟨?_, rfl, ?_⟩
    · simp [matmulComputeZeroCheck, h]
    · unfold numElements
      rcases h with h | h <;> simp [h]

/-- Witness for the amended C2 statement at concrete inputs. -/
theorem zeroSizedOutputShortCircuitWitness :
    convComputeZeroCheck [2, 2] [0, 4] = ConvZeroOutcome.shortCircuit [2, 2] ∧
    (matmulComputeZeroCheck 0 7).executed = false :=
  ⟨zeroSizedOutputShortCircuit.1 [2, 2] [0, 4] (Or.inl (by decide)),
   (zeroSizedOutputShortCircuit.2 0 7 (Or.inl rfl)).1⟩

/-- C6 counterexample: when the backend compute call throws, `Execute`
exits with all four slots still bound to the caller's buffers — the resets
of lines 148-153 never run on the throwing path, refuting the claim that
the reset happens on every exit path. -/
theorem executeThrowLeavesSlotsBoundCex :
    primExecute 1 2 (some 3) 4 true ⟨.dummy, .dummy, .dummy, .dummy⟩ =
      Except.error ⟨Slot.bound 1, Slot.bound 2, Slot.bound 3, Slot.bound 4⟩ ∧
    Slot.bound 1 ≠ Slot.dummy := by
  exact ⟨rfl, by decide⟩

/-- C6 amended: `Execute` resets the bound slots to the `DummyData`
sentinel only on the normal-completion path; when the backend compute call
throws, the exception propagates to the caller with the slots still bound
(there is no guaranteed-release path). -/
theorem executeResetOnNormalPathOnly (src filt dst : Nat) (bias : Option Nat)
    (c : ExecCtx) :
    primExecute src filt bias dst false c =
      Except.ok ⟨Slot.dummy, Slot.dummy,
        (match bias with | some _ => Slot.dummy | none => c.bias_mem),
        Slot.dummy⟩ ∧
    primExecute src filt bias dst true c =
      Except.error ⟨Slot.bound src, Slot.bound filt,
        (match bias with | some b => Slot.bound b | none => c.bias_mem),
        Slot.bound dst⟩ := by
  cases bias <;> exact ⟨rfl, rfl⟩

/-- C8 counterexample: an mkldnn exception thrown while the fused-matmul
kernel builds its primitive (factory `Get`, lines 1224-1225, outside the
`try` block) escapes `Compute` uncaught rather than becoming a status
error, refuting the claim that every backend exception raised during
building or executing is caught at the Compute boundary. -/
theorem matmulBuildExceptionEscapesCex :
    matmulComputeExn (some ThrowPhase.build) = ComputeOutcome.uncaught ∧
    ComputeOutcome.uncaught ≠ ComputeOutcome.status TfError.aborted := by
  exact ⟨rfl, by decide⟩

/-- C8 amended: backend exceptions raised inside the try-blocks are caught
at the Compute boundary and become an `Aborted` status for that call only —
in the conv kernel this covers build, reorder and execute; in the
fused-matmul kernel it covers reorder and execute, while an exception in
primitive construction (which precedes the try-block) escapes uncaught. -/
theorem computeExceptionTranslation (p : ThrowPhase) :
    convComputeExn (some p) = ComputeOutcome.status TfError.aborted ∧
    convComputeExn none = ComputeOutcome.ok ∧
    matmulComputeExn (some ThrowPhase.reorder) =
      ComputeOutcome.status TfError.aborted ∧
    matmulComputeExn (some ThrowPhase.execute) =
      ComputeOutcome.status TfError.aborted ∧
    matmulComputeExn (some ThrowPhase.build) = ComputeOutcome.uncaught ∧
    matmulComputeExn none = ComputeOutcome.ok := by
  cases p <;> exact ⟨rfl, rfl, rfl, rfl, rfl, rfl⟩

/-- C9: the fused-matmul constructor's only guard before reading
`fused_ops_[0]` is `fused_ops_.size() <= 2`, which the empty list passes;
the subsequent first-element access is out of bounds for the empty list,
an unchecked non-emptiness precondition at the public interface. -/
theorem fusedMatMulEmptyFusedOpsOob (ta tb fc : Bool) :
    mklFusedMatMulInit [] ta tb fc = MatMulCtorOutcome.oobRead := rfl

/-- A populated cache is left untouched by any further `CacheFilter`
critical section (the re-check at line 842 returns early). -/
theorem cacheFilterFilledNoop (md : Md) (s : FilterCacheState)
    (h : s.cachedFilterData.isSome) : CacheFilter md s = s := by
  simp [CacheFilter, h]

/-- After any positive number of serialized `CacheFilter` critical sections
with the same descriptor, the cache holds exactly the first writer's
conversion. -/
theorem cacheWritersFilled (md : Md) (k : Nat) (hk : 1 ≤ k) :
    cacheWriters md k = ⟨some md, some md, 1⟩ := by
  induction k with
  | zero => omega
  | succ n ih =>
    rcases Nat.eq_zero_or_pos n with hn | hn
    · subst hn; rfl
    · have h1 : cacheWriters md (n + 1) =
          CacheFilter md (cacheWriters md n) := by
        unfold cacheWriters
        rw [List.range_succ, List.foldl_append]
        rfl
      rw [h1, ih hn]
      exact cacheFilterFilledNoop md _ rfl

/-- C3: when N threads race on first use of the filter cache with the same
descriptor, the mutex serializes the `CacheFilter` critical sections, the
re-check of emptiness inside the exclusive section makes every writer after
the first a no-op, exactly one conversion is performed, and every
subsequent `GetCachedFilter` read (at any point after the first critical
section) returns the same cached buffer. -/
theorem filterCacheConcurrentFirstUse (weights_desc : Md) (k : Nat)
    (hk : 1 ≤ k) :
    (cacheWriters weights_desc k).conversions = 1 ∧
    GetCachedFilter weights_desc (cacheWriters weights_desc k) =
      some weights_desc := by
  rw [cacheWritersFilled weights_desc k hk]
  exact ⟨rfl, by simp [GetCachedFilter]⟩

/-- Witness for C3 with three racing writers. -/
theorem filterCacheConcurrentFirstUseWitness :
    (cacheWriters 7 3).conversions = 1 ∧
    GetCachedFilter 7 (cacheWriters 7 3) = some 7 :=
  filterCacheConcurrentFirstUse 7 3 (by decide)

/-- C4: when the cache holds a buffer converted for descriptor `md0` and
the current request's primitive wants `weights_desc ≠ md0`, the lookup
yields no cached data and `Compute` falls back to a fresh uncached reorder
for this call, leaving the cache state unchanged; moreover no `CacheFilter`
invocation ever overwrites a populated cache. -/
theorem cachedFilterMismatchFallback (filter_md weights_desc md0 buf : Md)
    (s : FilterCacheState)
    (hmd : s.cachedFilterMd = some md0)
    (hdata : s.cachedFilterData = some buf)
    (hne : weights_desc ≠ md0)
    (hreq : filter_md ≠ weights_desc) :
    convSelectFilter true filter_md weights_desc s =
      (FilterData.freshReorder weights_desc, s) ∧
    ∀ (md : Md) (t : FilterCacheState), t.cachedFilterData.isSome →
      CacheFilter md t = t := by
  refine ⟨?_, fun md t ht => cacheFilterFilledNoop md t ht⟩
  unfold convSelectFilter
  rw [if_pos hreq]
  have hempty : IsFilterCacheEmpty s = false := by
    simp [IsFilterCacheEmpty, hdata]
  simp [hempty, GetCachedFilter, hmd, hne]

/-- Witness for C4: cache converted for descriptor 1, request wants 2. -/
theorem cachedFilterMismatchFallbackWitness :
    convSelectFilter true 0 2 ⟨some 1, some 1, 1⟩ =
      (FilterData.freshReorder 2, ⟨some 1, some 1, 1⟩) :=
  (cachedFilterMismatchFallback 0 2 1 1 ⟨some 1, some 1, 1⟩ rfl rfl
    (by decide) (by decide)).1

/-- takeWhile collects exactly the left part when every element of `l`
satisfies the predicate and the appended element fails it. -/
theorem takeWhileAllAppend {α : Type} (p : α → Bool) (l : List α) (x : α)
    (hl : ∀ a ∈ l, p a = true) (hx : p x = false) :
    (l ++ [x]).takeWhile p = l := by
  induction l with
  | nil =>
    show (match p x with
          | true => x :: List.takeWhile p []
          | false => []) = []
    rw [hx]
  | cons a t ih =>
    have ha : p a = true := hl a (by simp)
    show (match p a with
          | true => a :: List.takeWhile p (t ++ [x])
          | false => []) = a :: t
    rw [ha, ih (fun b hb => hl b (by simp [hb]))]

/-- C10: on a fused-matmul `Compute` call with a non-zero-sized output, the
min/max diagnostic scan reads every element of the freshly allocated
destination buffer, and all those reads sit strictly before the primitive's
write of the destination — the scan observes unwritten output memory. -/
theorem matmulScanReadsUnwrittenOutput (batch channel : Nat)
    (hb : batch ≠ 0) (hc : channel ≠ 0) :
    (∀ i, i < batch * channel →
      MatmulEvent.readDst i ∈
        beforeDstWrite (matmulComputeTrace batch channel)) ∧
    MatmulEvent.writeDst ∉
      beforeDstWrite (matmulComputeTrace batch channel) := by
  have hcond : ¬(batch = 0 ∨ channel = 0) := by tauto
  have hpre : beforeDstWrite (matmulComputeTrace batch channel) =
      MatmulEvent.allocDst [(batch : Int), (channel : Int)] ::
      (List.range (batch * channel)).map MatmulEvent.readDst := by
    unfold beforeDstWrite matmulComputeTrace
    rw [if_neg hcond]
    show MatmulEvent.allocDst [(batch : Int), (channel : Int)] ::
        (((List.range (batch * channel)).map MatmulEvent.readDst) ++
          [MatmulEvent.writeDst]).takeWhile
          (fun e => e != MatmulEvent.writeDst) = _
    rw [takeWhileAllAppend (fun e => e != MatmulEvent.writeDst)
        ((List.range (batch * channel)).map MatmulEvent.readDst)
        MatmulEvent.writeDst
        (fun a ha => by rcases List.mem_map.mp ha with ⟨i, _, rfl⟩; rfl) rfl]
  constructor
  · intro i hi
    rw [hpre]
    exact List.mem_cons_of_mem _
      (List.mem_map.mpr ⟨i, List.mem_range.mpr hi, rfl⟩)
  · rw [hpre]
    intro hmem
    rcases List.mem_cons.mp hmem with h | h
    · exact MatmulEvent.noConfusion h
    · rcases List.mem_map.mp h with ⟨i, _, h⟩
      exact MatmulEvent.noConfusion h

/-- Witness for C10 on a 2-by-3 output: element 5 is read before the
destination write. -/
theorem matmulScanReadsUnwrittenOutputWitness :
    MatmulEvent.readDst 5 ∈ beforeDstWrite (matmulComputeTrace 2 3) ∧
    MatmulEvent.writeDst ∉ beforeDstWrite (matmulComputeTrace 2 3) :=
  ⟨(matmulScanReadsUnwrittenOutput 2 3 (by decide) (by decide)).1 5
     (by decide),
   (matmulScanReadsUnwrittenOutput 2 3 (by decide) (by decide)).2⟩

/-- C5 counterexample: the empty fusion list — which the claim lists as a
legal set — is rejected by the fused-conv constructor (line 897, with an
`InvalidArgument` error, not `UnsupportedFusion`), and the depthwise
variant rejects a lone activation `{Relu}`, which the claim's enumeration
admits. -/
theorem fusionEmptySetRejectedCex :
    mklFusedConvInit [] 0 0 false = Except.error TfError.invalidArgument ∧
    mklFusedDepthwiseConvInit ["Relu"] 1 false =
      Except.error TfError.unimplemented := by
  constructor
  · rfl
  · rfl


/-- Branch-by-branch acceptance of the fused-conv constructor. -/
theorem convLegalIffAux (ops : List String) (n : Int) (al : Rat) (p : Bool) :
    (∃ c, mklFusedConvInit ops n al p = Except.ok c) ↔ convFusedLegal ops n := by
  by_cases h0 : ops = []
  · subst h0; simp [mklFusedConvInit, convFusedLegal]
  by_cases h1 : ops = ["BiasAdd"]
  · subst h1; simp [mklFusedConvInit, convFusedLegal]
    split_ifs <;> simp_all
  by_cases h2 : ops = ["Relu"]
  · subst h2; simp [mklFusedConvInit, convFusedLegal]
  by_cases h3 : ops = ["Relu6"]
  · subst h3; simp [mklFusedConvInit, convFusedLegal]
  by_cases h4 : ops = ["Elu"]
  · subst h4; simp [mklFusedConvInit, convFusedLegal]
  by_cases h5 : ops = ["LeakyRelu"]
  · subst h5; simp [mklFusedConvInit, convFusedLegal]
  by_cases h6 : ops = ["BiasAdd", "Relu"]
  · subst h6; simp [mklFusedConvInit, convFusedLegal]
    split_ifs <;> simp_all
  by_cases h7 : ops = ["BiasAdd", "Relu6"]
  · subst h7; simp [mklFusedConvInit, convFusedLegal]
    split_ifs <;> simp_all
  by_cases h8 : ops = ["BiasAdd", "Elu"]
  · subst h8; simp [mklFusedConvInit, convFusedLegal]
    split_ifs <;> simp_all
  by_cases h9 : ops = ["BiasAdd", "LeakyRelu"]
  · subst h9; simp [mklFusedConvInit, convFusedLegal]
    split_ifs <;> simp_all
  by_cases h10 : ops = ["BiasAdd", "Add"]
  · subst h10; simp [mklFusedConvInit, convFusedLegal]
    split_ifs <;> simp_all
  by_cases h11 : ops = ["BiasAdd", "Add", "Relu"]
  · subst h11; simp [mklFusedConvInit, convFusedLegal]
    split_ifs <;> simp_all
  by_cases h12 : ops = ["BiasAdd", "Add", "Relu6"]
  · subst h12; simp [mklFusedConvInit, convFusedLegal]
    split_ifs <;> simp_all
  by_cases h13 : ops = ["BiasAdd", "Add", "Elu"]
  · subst h13; simp [mklFusedConvInit, convFusedLegal]
    split_ifs <;> simp_all
  by_cases h14 : ops = ["BiasAdd", "Add", "LeakyRelu"]
  · subst h14; simp [mklFusedConvInit, convFusedLegal]
    split_ifs <;> simp_all
  unfold mklFusedConvInit convFusedLegal
  rw [if_neg h0, if_neg h1, if_neg h2, if_neg h3, if_neg h4, if_neg h5, if_neg h6, if_neg h7, if_neg h8, if_neg h9, if_neg h10, if_neg h11, if_neg h12, if_neg h13, if_neg h14]
  simp_all

/-- Branch-by-branch acceptance of the fused-depthwise-conv constructor. -/
theorem dwLegalIffAux (ops : List String) (n : Int) (p : Bool) :
    (∃ c, mklFusedDepthwiseConvInit ops n p = Except.ok c) ↔
      dwFusedLegal ops n := by
  by_cases h0 : ops = []
  · subst h0; simp [mklFusedDepthwiseConvInit, dwFusedLegal]
  by_cases h1 : ops = ["BiasAdd"]
  · subst h1; simp [mklFusedDepthwiseConvInit, dwFusedLegal]
    split_ifs <;> simp_all
  by_cases h2 : ops = ["BiasAdd", "Relu"]
  · subst h2; simp [mklFusedDepthwiseConvInit, dwFusedLegal]
    split_ifs <;> simp_all
  by_cases h3 : ops = ["BiasAdd", "Relu6"]
  · subst h3; simp [mklFusedDepthwiseConvInit, dwFusedLegal]
    split_ifs <;> simp_all
  by_cases h4 : ops = ["BiasAdd", "Elu"]
  · subst h4; simp [mklFusedDepthwiseConvInit, dwFusedLegal]
    split_ifs <;> simp_all
  unfold mklFusedDepthwiseConvInit dwFusedLegal
  rw [if_neg h0, if_neg h1, if_neg h2, if_neg h3, if_neg h4]
  simp_all

/-- A nonempty fusion list outside the matched enumeration falls through to
the final branch and is rejected with Unimplemented. -/
theorem convUnimplAux (ops : List String) (n : Int) (al : Rat) (p : Bool)
    (hne : ops ≠ []) (hnotin : ops ∉ convFusedAllLists) :
    mklFusedConvInit ops n al p = Except.error TfError.unimplemented := by
  simp only [convFusedAllLists, List.mem_cons, List.mem_singleton,
    not_or] at hnotin
  obtain ⟨g1, g2, g3, g4, g5, g6, g7, g8, g9, g10, g11, g12, g13, g14, -⟩ := hnotin
  unfold mklFusedConvInit
  rw [if_neg hne, if_neg g1, if_neg g2, if_neg g3, if_neg g4, if_neg g5, if_neg g6, if_neg g7, if_neg g8, if_neg g9, if_neg g10, if_neg g11, if_neg g12, if_neg g13, if_neg g14]

/-- C5 amended: the fused-conv constructor accepts exactly a lone
activation (Relu, Relu6, Elu, LeakyRelu — no `num_args` constraint),
`{BiasAdd}` or `{BiasAdd, activation}` with `num_args = 1`, and
`{BiasAdd, Add}` or `{BiasAdd, Add, activation}` with `num_args = 2`;
every nonempty list outside the matched enumeration is rejected with
`Unimplemented` ("Fusion is not implemented", the spec's
`UnsupportedFusion`), while the empty list is rejected earlier with
`InvalidArgument`.  The depthwise variant accepts exactly `{BiasAdd}` and
`{BiasAdd, activation}` for activation in {Relu, Relu6, Elu}, with
`num_args = 1`. -/
theorem fusedConvAcceptedSets (ops : List String) (n : Int) (al : Rat)
    (p : Bool) :
    ((∃ c, mklFusedConvInit ops n al p = Except.ok c) ↔
      convFusedLegal ops n) ∧
    ((∃ c, mklFusedDepthwiseConvInit ops n p = Except.ok c) ↔
      dwFusedLegal ops n) ∧
    (ops ≠ [] → ops ∉ convFusedAllLists →
      mklFusedConvInit ops n al p = Except.error TfError.unimplemented) :=
  ⟨convLegalIffAux ops n al p, dwLegalIffAux ops n p,
   fun hne hnotin => convUnimplAux ops n al p hne hnotin⟩

/-- Witness for the amended C5 statement: `{Activation, ResidualAdd}`
without `BiasAdd` is rejected with Unimplemented. -/
theorem fusedConvAcceptedSetsWitness :
    mklFusedConvInit ["Relu", "Add"] 0 0 false =
      Except.error TfError.unimplemented :=
  (fusedConvAcceptedSets ["Relu", "Add"] 0 0 false).2.2 (by decide)
    (by decide)

/-- C7 counterexample: rank-4 strides `[1,1,1,1]` with rank-5 dilations
`[1,1,1,1,1]` (all ones, NHWC, no dual padding attributes) trip none of the
claim's failure conditions, yet the constructor rejects this configuration
(line 361: "Sliding window dilations field must specify 4 dimensions"),
refuting the claim's "otherwise construction succeeds". -/
theorem convInitDilationRankCex :
    mklConvOpInit ⟨[1, 1, 1, 1, 1], [1, 1, 1, 1], DataFormat.NHWC,
        false, false, false⟩ = Except.error TfError.invalidArgument ∧
    c7ClaimFailureCondition ⟨[1, 1, 1, 1, 1], [1, 1, 1, 1], DataFormat.NHWC,
        false, false, false⟩ = false := by
  exact ⟨rfl, by decide⟩

set_option maxHeartbeats 1000000 in
/-- C7 amended: for a recognized data format, construction fails exactly
when both padding attributes are present, the stride rank is not 4 or 5,
a batch/channel stride differs from 1 (reported as `Unimplemented`), the
dilation rank differs from the stride rank, a batch/channel dilation
differs from 1, or a spatial dilation is not positive; otherwise it
succeeds (the constructor is a pure check that only stores the validated
attributes). -/
theorem convInitValidation (a : ConvAttrs) :
    (∃ c, mklConvOpInit a = Except.ok c) ↔ ¬ convInitFailureCondition a := by
  unfold mklConvOpInit convInitFailureCondition
  split_ifs <;> simp_all [spatialDilationsPositive]
